import Mathlib

/-!
Verification of the TerraStride geodesic grid-tiling and run-capture core.

The definitions below are a shallow embedding of the TypeScript source:
  - `src/mobile/utils/gridUtils.ts` (grid projector), and
  - `src/mobile/app/(root)/map.tsx` (run-capture aggregator).
Floating-point doubles are modelled as real numbers; JavaScript `Math.floor`
is `Int.floor`, `Math.atan2` is the standard two-argument arctangent
defined below, and a JavaScript `Map` keyed by the tile-id string
`"gx_gy"` is modelled as an association list keyed by the integer pair
`(gx, gy)` (the string rendering of an integer pair is injective, so the
keying is the same).
-/

open Real

namespace TerraStride

/-- JavaScript `Math.atan2(y, x)`: the two-argument arctangent. -/
noncomputable def atan2 (y x : ℝ) : ℝ :=
  if 0 < x then arctan (y / x)
  else if x < 0 ∧ 0 ≤ y then arctan (y / x) + π
  else if x < 0 ∧ y < 0 then arctan (y / x) - π
  else if x = 0 ∧ 0 < y then π / 2
  else if x = 0 ∧ y < 0 then -(π / 2)
  else 0

/-- JavaScript truncation toward zero, as used by the `%` operator. -/
noncomputable def jsTrunc (x : ℝ) : ℝ :=
  if 0 ≤ x then (⌊x⌋ : ℝ) else (⌈x⌉ : ℝ)

/-- JavaScript remainder `a % b` (truncated division remainder). -/
noncomputable def jsRem (a b : ℝ) : ℝ :=
  a - b * jsTrunc (a / b)

/-! ## Grid projector (`gridUtils.ts`) -/

def EARTH_RADIUS : ℝ := 6378137

noncomputable def ORIGIN_SHIFT : ℝ := π * EARTH_RADIUS

def GRID_SIZE_METERS : ℝ := 100

structure LatLng where
  latitude : ℝ
  longitude : ℝ

/-- Structure `GridSquare` from the source; the string id `"gx_gy"` is modelled by
the integer pair it encodes. -/
structure GridSquare where
  id : ℤ × ℤ
  corners : List LatLng
  centroid : LatLng

noncomputable def lonToMeters (lon : ℝ) : ℝ := lon * ORIGIN_SHIFT / 180

noncomputable def latToMeters (lat : ℝ) : ℝ :=
  let latRad := lat * π / 180
  EARTH_RADIUS * Real.log (Real.tan (π / 4 + latRad / 2))

noncomputable def metersToLon (x : ℝ) : ℝ := x / ORIGIN_SHIFT * 180

noncomputable def metersToLat (y : ℝ) : ℝ :=
  let latRad := π / 2 - 2 * arctan (Real.exp (-y / EARTH_RADIUS))
  latRad * 180 / π

noncomputable def buildSquareFromIndices (gridX gridY : ℤ) (gridSizeMeters : ℝ) :
    GridSquare :=
  let minX := (gridX : ℝ) * gridSizeMeters
  let maxX := ((gridX : ℝ) + 1) * gridSizeMeters
  let minY := (gridY : ℝ) * gridSizeMeters
  let maxY := ((gridY : ℝ) + 1) * gridSizeMeters
  { id := (gridX, gridY)
    corners :=
      [ { latitude := metersToLat minY, longitude := metersToLon minX }
      , { latitude := metersToLat minY, longitude := metersToLon maxX }
      , { latitude := metersToLat maxY, longitude := metersToLon maxX }
      , { latitude := metersToLat maxY, longitude := metersToLon minX } ]
    centroid :=
      { latitude := metersToLat ((minY + maxY) / 2)
        longitude := metersToLon ((minX + maxX) / 2) } }

noncomputable def latLngToGridSquare (latitude longitude : ℝ)
    (gridSizeMeters : ℝ) : GridSquare :=
  let x := lonToMeters longitude
  let y := latToMeters latitude
  let gridX := ⌊x / gridSizeMeters⌋
  let gridY := ⌊y / gridSizeMeters⌋
  buildSquareFromIndices gridX gridY gridSizeMeters

noncomputable def gridIndicesToSquare (gridX gridY : ℤ)
    (gridSizeMeters : ℝ) : GridSquare :=
  buildSquareFromIndices gridX gridY gridSizeMeters

/-- Function `gridSquareToPolygon`: the four corners with the first repeated. -/
noncomputable def gridSquareToPolygon (square : GridSquare) : List LatLng :=
  square.corners ++ [square.corners.headD { latitude := 0, longitude := 0 }]

/-! ## Run-capture aggregator (`map.tsx`) -/

/-- Unrolling of the two nested neighbour loops in map.tsx
(`dx` outer, `dy` inner, skipping `(0, 0)`). -/
def neighborOffsets : List (ℤ × ℤ) :=
  [(-1, -1), (-1, 0), (-1, 1), (0, -1), (0, 1), (1, -1), (1, 0), (1, 1)]

noncomputable def neighborSquares (gridX gridY : ℤ)
    (s : ℝ) : List GridSquare :=
  neighborOffsets.map fun d => gridIndicesToSquare (gridX + d.1) (gridY + d.2) s

/-- Function `calculateDistanceMeters` from map.tsx: Haversine distance in meters. -/
noncomputable def calculateDistanceMeters (p q : LatLng) : ℝ :=
  let R : ℝ := 6371000
  let lat1 := p.latitude * π / 180
  let lat2 := q.latitude * π / 180
  let deltaLat := (q.latitude - p.latitude) * π / 180
  let deltaLng := (q.longitude - p.longitude) * π / 180
  let a := Real.sin (deltaLat / 2) * Real.sin (deltaLat / 2) +
    Real.cos lat1 * Real.cos lat2 *
      Real.sin (deltaLng / 2) * Real.sin (deltaLng / 2)
  let c := 2 * atan2 (Real.sqrt a) (Real.sqrt (1 - a))
  R * c

/-- The Haversine term `a` of two points, written as the spec words it. -/
noncomputable def haversineTerm (p q : LatLng) : ℝ :=
  Real.sin ((q.latitude - p.latitude) * π / 180 / 2) ^ 2 +
    Real.cos (p.latitude * π / 180) * Real.cos (q.latitude * π / 180) *
      Real.sin ((q.longitude - p.longitude) * π / 180 / 2) ^ 2

/-- Haversine great-circle distance as the spec words it:
`R * c` with `c = 2 * atan2 (sqrt a) (sqrt (1 - a))`. -/
noncomputable def haversineDistanceSpec (p q : LatLng) : ℝ :=
  6371000 *
    (2 * atan2 (Real.sqrt (haversineTerm p q)) (Real.sqrt (1 - haversineTerm p q)))

structure CapturedSquareData where
  square : GridSquare
  distanceMeters : ℝ
  durationSeconds : ℝ
  lastEnterTime : ℝ

/-- JavaScript `Map.prototype.get` on the association-list model of the ledger. -/
def mapGet {α : Type} : List ((ℤ × ℤ) × α) → (ℤ × ℤ) → Option α
  | [], _ => none
  | kv :: rest, k => if kv.1 = k then some kv.2 else mapGet rest k

/-- JavaScript `Map.prototype.set`: replace in place, or append a new binding. -/
def mapSet {α : Type} : List ((ℤ × ℤ) × α) → (ℤ × ℤ) → α → List ((ℤ × ℤ) × α)
  | [], k, v => [(k, v)]
  | kv :: rest, k, v => if kv.1 = k then (k, v) :: rest else kv :: mapSet rest k v

/-- The mutable refs and state of the `TerritoryCapture` component that the
run-capture logic reads and writes. -/
structure RunState where
  isRunning : Bool
  currentPosition : Option LatLng
  lastPosition : Option LatLng
  lastUpdateTime : ℝ
  totalDistance : ℝ
  elapsedTime : ℝ
  captured : List ((ℤ × ℤ) × CapturedSquareData)

/-- Function `handlePositionUpdate` from map.tsx; the timestamp `now` is passed
explicitly (the source reads `Date.now()`). -/
noncomputable def handlePositionUpdate (position : LatLng) (now : ℝ)
    (s : RunState) : RunState :=
  let s1 := { s with currentPosition := some position }
  if s1.isRunning then
    let step :=
      match s1.lastPosition with
      | none => ((0 : ℝ), s1.totalDistance)
      | some prev =>
        let d := calculateDistanceMeters prev position
        if 0 < d ∧ d < 100 then (d, s1.totalDistance + d)
        else ((0 : ℝ), s1.totalDistance)
    let dist := step.1
    let timeDelta :=
      if 0 < s1.lastUpdateTime then (now - s1.lastUpdateTime) / 1000 else 0
    let square := latLngToGridSquare position.latitude position.longitude GRID_SIZE_METERS
    let currentData :=
      (mapGet s1.captured square.id).getD
        { square := square, distanceMeters := 0, durationSeconds := 0
          lastEnterTime := now }
    let updated :=
      { currentData with
          distanceMeters := currentData.distanceMeters + dist
          durationSeconds := currentData.durationSeconds + timeDelta
          lastEnterTime := now }
    { s1 with
        totalDistance := step.2
        captured := mapSet s1.captured square.id updated
        lastPosition := some position
        lastUpdateTime := now }
  else s1

/-- Function `handleStartRun` from map.tsx: arm a fresh run. -/
def handleStartRun (now : ℝ) (s : RunState) : RunState :=
  { s with
      isRunning := true
      elapsedTime := 0
      totalDistance := 0
      captured := []
      lastPosition := s.currentPosition
      lastUpdateTime := now }

/-- Folding a stream of (position, timestamp) samples into the state. -/
noncomputable def processSamples (samples : List (LatLng × ℝ))
    (s : RunState) : RunState :=
  samples.foldl (fun st pt => handlePositionUpdate pt.1 pt.2 st) s

/-- The pace computation inside `submitRun`: the source formats the string
`"min.sec"` from these two integers (and "0.00" when distance is zero);
modelled as the pair (paceMin, paceSec). -/
noncomputable def pacePair (durationSeconds distanceMeters : ℝ) : ℤ × ℤ :=
  let distanceKm := distanceMeters / 1000
  if 0 < distanceKm then
    let paceSecondsPerKm := durationSeconds / distanceKm
    (⌊paceSecondsPerKm / 60⌋, ⌊jsRem paceSecondsPerKm 60⌋)
  else (0, 0)

/-- Reading of the submitted pace pair in minutes per kilometer
(minutes plus seconds over sixty). -/
noncomputable def decodePace (p : ℤ × ℤ) : ℝ := (p.1 : ℝ) + (p.2 : ℝ) / 60

/-- The exact average pace in minutes per kilometer as the spec defines it,
with the zero-distance guard. -/
noncomputable def specPaceMinPerKm (durationSeconds distanceMeters : ℝ) : ℝ :=
  if distanceMeters = 0 then 0 else durationSeconds / (distanceMeters / 1000) / 60

/-- JavaScript `Math.max(...xs)` over a nonempty argument list. -/
noncomputable def maxList : List ℝ → ℝ
  | [] => 0
  | x :: xs => xs.foldl max x

/-- JavaScript `Math.min(...xs)` over a nonempty argument list. -/
noncomputable def minList : List ℝ → ℝ
  | [] => 0
  | x :: xs => xs.foldl min x

/-- A submission record; the random display color of the source is omitted
(it is drawn from a fixed palette by a random index and carries no
geometric or pace content). -/
structure Territory where
  average_pace : ℤ × ℤ
  left_top_corner_lat : ℝ
  left_top_corner_lng : ℝ
  left_bottom_corner_lat : ℝ
  left_bottom_corner_lng : ℝ
  right_top_corner_lat : ℝ
  right_top_corner_lng : ℝ
  right_bottom_corner_lat : ℝ
  right_bottom_corner_lng : ℝ

/-- The per-record body of the `territoriesPayload` map in `submitRun`. -/
noncomputable def territoryOfRecord (data : CapturedSquareData) : Territory :=
  let polygon := gridSquareToPolygon data.square
  let lats := polygon.map LatLng.latitude
  let lngs := polygon.map LatLng.longitude
  let maxLat := maxList lats
  let minLat := minList lats
  let maxLng := maxList lngs
  let minLng := minList lngs
  { average_pace := pacePair data.durationSeconds data.distanceMeters
    left_top_corner_lat := maxLat
    left_top_corner_lng := minLng
    left_bottom_corner_lat := minLat
    left_bottom_corner_lng := minLng
    right_top_corner_lat := maxLat
    right_top_corner_lng := maxLng
    right_bottom_corner_lat := minLat
    right_bottom_corner_lng := maxLng }

noncomputable def territoriesPayload
    (captured : List ((ℤ × ℤ) × CapturedSquareData)) : List Territory :=
  captured.map fun kv => territoryOfRecord kv.2

inductive SubmitOutcome where
  | noTerritory
  | posted (territories : List Territory)

/-- Function `submitRun` from map.tsx: stop the run and derive the payload; with an
empty payload it alerts "No Territory" and returns without posting,
otherwise it posts the payload. -/
noncomputable def submitRun (s : RunState) : RunState × SubmitOutcome :=
  let s1 := { s with isRunning := false }
  let payload := territoriesPayload s1.captured
  if payload.length = 0 then (s1, SubmitOutcome.noTerritory)
  else (s1, SubmitOutcome.posted payload)

/-- Total distance recorded across the ledger. -/
noncomputable def sumDist (m : List ((ℤ × ℤ) × CapturedSquareData)) : ℝ :=
  (m.map fun kv => kv.2.distanceMeters).sum

/-- Distance field of an optional ledger record (absent reads as zero). -/
noncomputable def recDist : Option CapturedSquareData → ℝ
  | none => 0
  | some r => r.distanceMeters

/-- The distance delta a sample contributes, as computed at the top of the
running branch of `handlePositionUpdate`: zero without a previous position,
and zero unless the Haversine delta lies strictly between 0 and 100. -/
noncomputable def stepDelta (prev? : Option LatLng) (position : LatLng) : ℝ :=
  match prev? with
  | none => 0
  | some prev =>
    if 0 < calculateDistanceMeters prev position ∧
        calculateDistanceMeters prev position < 100 then
      calculateDistanceMeters prev position
    else 0

/-- The elapsed-time delta of a sample in `handlePositionUpdate`. -/
noncomputable def stepTimeDelta (lastUpdateTime now : ℝ) : ℝ :=
  if 0 < lastUpdateTime then (now - lastUpdateTime) / 1000 else 0

/-- A concrete running state used to instantiate theorems with hypotheses. -/
noncomputable def sampleState : RunState :=
  { isRunning := true
    currentPosition := none
    lastPosition := some { latitude := 0, longitude := 0 }
    lastUpdateTime := 1000
    totalDistance := 5
    elapsedTime := 0
    captured :=
      [((0, 0),
        { square := buildSquareFromIndices 0 0 100
          distanceMeters := 5
          durationSeconds := 10
          lastEnterTime := 0 })] }

/-! ## Round-trip lemmas for the projection -/

theorem metersToLon_lonToMeters (lon : ℝ) : metersToLon (lonToMeters lon) = lon := by
  unfold metersToLon lonToMeters ORIGIN_SHIFT EARTH_RADIUS
  have hπ : π ≠ 0 := Real.pi_ne_zero
  field_simp
  ring

theorem metersToLat_latToMeters (lat : ℝ) (h : |lat| < 90) :
    metersToLat (latToMeters lat) = lat := by
  have hπ : 0 < π := Real.pi_pos
  have habs := abs_lt.mp h
  have hθ0 : 0 < π / 4 + lat * π / 180 / 2 := by
    nlinarith [mul_pos (show (0:ℝ) < lat + 90 by linarith [habs.1]) hπ]
  have hθπ : π / 4 + lat * π / 180 / 2 < π / 2 := by
    nlinarith [mul_pos (show (0:ℝ) < 90 - lat by linarith [habs.2]) hπ]
  have ht : 0 < Real.tan (π / 4 + lat * π / 180 / 2) :=
    Real.tan_pos_of_pos_of_lt_pi_div_two hθ0 hθπ
  simp only [metersToLat, latToMeters, EARTH_RADIUS]
  have harg :
      -(6378137 * Real.log (Real.tan (π / 4 + lat * π / 180 / 2))) / 6378137
        = -Real.log (Real.tan (π / 4 + lat * π / 180 / 2)) := by
    field_simp
    ring
  rw [harg, Real.exp_neg, Real.exp_log ht, Real.arctan_inv_of_pos ht,
    Real.arctan_tan (by linarith) hθπ]
  field_simp
  ring

/-- C1: for every latitude with |lat| < 89 degrees and any longitude,
the inverse projection applied to the forward projection recovers the
original coordinates to within 1e-6 degrees. -/
theorem projection_roundtrip (lat lon : ℝ) (h : |lat| < 89) :
    |metersToLat (latToMeters lat) - lat| ≤ 1e-6 ∧
    |metersToLon (lonToMeters lon) - lon| ≤ 1e-6 := by
  refine ⟨?_, ?_⟩
  · rw [metersToLat_latToMeters lat (lt_trans h (by norm_num))]
    simp
    norm_num
  · rw [metersToLon_lonToMeters]
    simp
    norm_num

/-- Witness for C1 at latitude 45, longitude 14. -/
theorem projection_roundtrip_witness :
    |metersToLat (latToMeters 45) - 45| ≤ 1e-6 ∧
    |metersToLon (lonToMeters 14) - 14| ≤ 1e-6 :=
  projection_roundtrip 45 14 (by rw [abs_lt]; constructor <;> norm_num)

/-! ## Tile location and neighbours -/

theorem gridIndicesToSquare_id (a b : ℤ) (s : ℝ) :
    (gridIndicesToSquare a b s).id = (a, b) := rfl

/-- C5: `latLngToGridSquare` assigns the tile indices
`(⌊x / edge⌋, ⌊y / edge⌋)` of the projected meter coordinates, builds the
square from those indices, and is a pure deterministic function: two calls
with identical inputs and edge length yield identical `(gx, gy)`. -/
theorem latLngToGridSquare_floor_det
    (lat lon s lat' lon' s' : ℝ)
    (h1 : lat = lat') (h2 : lon = lon') (h3 : s = s') :
    (latLngToGridSquare lat lon s).id
        = (⌊lonToMeters lon / s⌋, ⌊latToMeters lat / s⌋) ∧
    latLngToGridSquare lat lon s
        = buildSquareFromIndices ⌊lonToMeters lon / s⌋ ⌊latToMeters lat / s⌋ s ∧
    (latLngToGridSquare lat lon s).id = (latLngToGridSquare lat' lon' s').id := by
  subst h1; subst h2; subst h3
  exact ⟨rfl, rfl, rfl⟩

/-- Witness for C5 at latitude 45, longitude 14, edge length 100. -/
theorem latLngToGridSquare_floor_det_witness :
    (latLngToGridSquare 45 14 100).id
        = (⌊lonToMeters 14 / 100⌋, ⌊latToMeters 45 / 100⌋) ∧
    latLngToGridSquare 45 14 100
        = buildSquareFromIndices ⌊lonToMeters 14 / 100⌋ ⌊latToMeters 45 / 100⌋ 100 ∧
    (latLngToGridSquare 45 14 100).id = (latLngToGridSquare 45 14 100).id :=
  latLngToGridSquare_floor_det 45 14 100 45 14 100 rfl rfl rfl

/-- C9: the neighbour computation yields exactly the eight tiles whose
indices differ from `(gx, gy)` by −1, 0 or +1 in each coordinate with
`(gx, gy)` itself excluded (the Chebyshev-distance-1 ring), and each
element is built from its indices alone. -/
theorem neighborSquares_chebyshev_ring (gx gy : ℤ) (s : ℝ) :
    (neighborSquares gx gy s).length = 8 ∧
    ((neighborSquares gx gy s).map GridSquare.id).Nodup ∧
    (∀ q ∈ neighborSquares gx gy s, q = gridIndicesToSquare q.id.1 q.id.2 s) ∧
    (∀ a b : ℤ,
      (a, b) ∈ (neighborSquares gx gy s).map GridSquare.id ↔
        ((a, b) ≠ (gx, gy) ∧ max (a - gx).natAbs (b - gy).natAbs = 1)) := by
  refine ⟨rfl, ?_, ?_, ?_⟩
  · simp only [neighborSquares, neighborOffsets, List.map_cons,
      List.map_nil, gridIndicesToSquare_id]
    simp only [List.nodup_cons, List.mem_cons, List.mem_singleton,
      List.not_mem_nil, List.nodup_nil, Prod.mk.injEq, not_or, and_true,
      true_and, not_false_iff]
    repeat' apply And.intro
    all_goals first | trivial | omega
  · intro q hq
    simp only [neighborSquares, neighborOffsets, List.map_cons, List.map_nil,
      List.mem_cons, List.not_mem_nil, or_false] at hq
    rcases hq with rfl | rfl | rfl | rfl | rfl | rfl | rfl | rfl <;> rfl
  · intro a b
    simp only [neighborSquares, neighborOffsets, List.map_cons,
      List.map_nil, gridIndicesToSquare_id, List.mem_cons,
      List.not_mem_nil, or_false, Prod.mk.injEq, ne_eq, not_and]
    omega

/-! ## Ledger map lemmas -/

theorem mapGet_mapSet_self {α : Type} (m : List ((ℤ × ℤ) × α)) (k : ℤ × ℤ)
    (v : α) : mapGet (mapSet m k v) k = some v := by
  induction m with
  | nil => simp [mapSet, mapGet]
  | cons kv rest ih =>
    by_cases h : kv.1 = k
    · simp [mapSet, mapGet, h]
    · simp [mapSet, mapGet, h, ih]

theorem mapGet_mapSet_ne {α : Type} (m : List ((ℤ × ℤ) × α)) (k k' : ℤ × ℤ)
    (v : α) (h : k ≠ k') : mapGet (mapSet m k v) k' = mapGet m k' := by
  induction m with
  | nil => simp [mapSet, mapGet, h]
  | cons kv rest ih =>
    by_cases hk : kv.1 = k
    · simp [mapSet, mapGet, hk, h]
    · simp [mapSet, mapGet, hk, ih]

theorem sumDist_cons (kv : (ℤ × ℤ) × CapturedSquareData)
    (m : List ((ℤ × ℤ) × CapturedSquareData)) :
    sumDist (kv :: m) = kv.2.distanceMeters + sumDist m := by
  simp [sumDist]

theorem sumDist_mapSet (m : List ((ℤ × ℤ) × CapturedSquareData)) (k : ℤ × ℤ)
    (v : CapturedSquareData) :
    sumDist (mapSet m k v) =
      sumDist m + v.distanceMeters - recDist (mapGet m k) := by
  induction m with
  | nil => simp [mapSet, mapGet, sumDist, recDist]
  | cons kv rest ih =>
    by_cases h : kv.1 = k
    · simp only [mapSet, mapGet, h, if_pos, sumDist_cons, recDist]
      ring
    · simp only [mapSet, mapGet, h, if_neg, sumDist_cons, if_false,
        ite_false]
      rw [ih]
      ring

theorem recDist_some (r : CapturedSquareData) :
    recDist (some r) = r.distanceMeters := rfl

theorem recDist_getD (m : List ((ℤ × ℤ) × CapturedSquareData)) (k : ℤ × ℤ)
    (sq : GridSquare) (t : ℝ) :
    ((mapGet m k).getD
        { square := sq, distanceMeters := 0, durationSeconds := 0
          lastEnterTime := t }).distanceMeters = recDist (mapGet m k) := by
  cases mapGet m k <;> rfl

/-! ## Characterization of a running `handlePositionUpdate` step -/

theorem handlePositionUpdate_running (p : LatLng) (now : ℝ) (s : RunState)
    (hrun : s.isRunning = true) :
    (handlePositionUpdate p now s).isRunning = true ∧
    (handlePositionUpdate p now s).lastPosition = some p ∧
    (handlePositionUpdate p now s).lastUpdateTime = now ∧
    (handlePositionUpdate p now s).totalDistance
        = s.totalDistance + stepDelta s.lastPosition p ∧
    (handlePositionUpdate p now s).captured
        = mapSet s.captured (latLngToGridSquare p.latitude p.longitude GRID_SIZE_METERS).id
            (let cd := (mapGet s.captured
                (latLngToGridSquare p.latitude p.longitude GRID_SIZE_METERS).id).getD
              { square := latLngToGridSquare p.latitude p.longitude GRID_SIZE_METERS
                distanceMeters := 0, durationSeconds := 0, lastEnterTime := now }
             { square := cd.square
               distanceMeters := cd.distanceMeters + stepDelta s.lastPosition p
               durationSeconds :=
                 cd.durationSeconds + stepTimeDelta s.lastUpdateTime now
               lastEnterTime := now }) := by
  cases hl : s.lastPosition with
  | none =>
    simp [handlePositionUpdate, stepDelta, stepTimeDelta, hrun, hl]
  | some prev =>
    by_cases hd : 0 < calculateDistanceMeters prev p ∧
        calculateDistanceMeters prev p < 100
    · simp [handlePositionUpdate, stepDelta, stepTimeDelta, hrun, hl, hd]
    · simp [handlePositionUpdate, stepDelta, stepTimeDelta, hrun, hl, hd]

theorem stepDelta_nonneg (prev? : Option LatLng) (p : LatLng) :
    0 ≤ stepDelta prev? p := by
  cases prev? with
  | none => simp [stepDelta]
  | some prev =>
    by_cases hd : 0 < calculateDistanceMeters prev p ∧
        calculateDistanceMeters prev p < 100
    · simp [stepDelta, hd]
      exact le_of_lt hd.1
    · simp [stepDelta, hd]

/-! ## Noise rejection, monotonicity and total-distance consistency -/

theorem calculateDistance_equator_antipodal :
    calculateDistanceMeters { latitude := 0, longitude := 0 }
        { latitude := 0, longitude := 180 } = 6371000 * π := by
  simp only [calculateDistanceMeters]
  rw [show ((0:ℝ) - 0) * π / 180 / 2 = 0 by ring,
    show ((180:ℝ) - 0) * π / 180 / 2 = π / 2 by ring,
    show (0:ℝ) * π / 180 = 0 by ring,
    Real.sin_zero, Real.cos_zero, Real.sin_pi_div_two]
  rw [show (0:ℝ) * 0 + 1 * 1 * 1 * 1 = 1 by ring]
  rw [Real.sqrt_one, show (1:ℝ) - 1 = 0 by ring, Real.sqrt_zero]
  rw [show atan2 1 0 = π / 2 by simp [atan2]]
  ring

/-- C2: a consecutive sample more than 100 m from the previous one, as
measured by the aggregator's distance function, contributes zero distance to
the run total and to every ledger record, while the stored current position
still advances to the new sample. -/
theorem noise_rejection (p : LatLng) (now : ℝ) (s : RunState) (prev : LatLng)
    (hrun : s.isRunning = true) (hlast : s.lastPosition = some prev)
    (hfar : 100 < calculateDistanceMeters prev p) :
    (handlePositionUpdate p now s).totalDistance = s.totalDistance ∧
    (∀ k, recDist (mapGet (handlePositionUpdate p now s).captured k)
        = recDist (mapGet s.captured k)) ∧
    (handlePositionUpdate p now s).lastPosition = some p := by
  obtain ⟨-, hpos, -, htot, hcap⟩ := handlePositionUpdate_running p now s hrun
  have hdelta : stepDelta s.lastPosition p = 0 := by
    rw [hlast]
    simp only [stepDelta]
    rw [if_neg]
    rintro ⟨-, h2⟩
    linarith
  refine ⟨by rw [htot, hdelta, add_zero], ?_, hpos⟩
  intro k
  rw [hcap]
  by_cases hk : (latLngToGridSquare p.latitude p.longitude GRID_SIZE_METERS).id = k
  · subst hk
    rw [mapGet_mapSet_self, recDist_some]
    simp only [hdelta, add_zero]
    exact recDist_getD _ _ _ _
  · rw [mapGet_mapSet_ne _ _ _ _ hk]

/-- Witness for C2: a jump from (0, 0) to (0, 180) on the equator. -/
theorem noise_rejection_witness :
    (handlePositionUpdate { latitude := 0, longitude := 180 } 2000
        sampleState).totalDistance = sampleState.totalDistance ∧
    recDist (mapGet (handlePositionUpdate { latitude := 0, longitude := 180 }
        2000 sampleState).captured (0, 0))
      = recDist (mapGet sampleState.captured (0, 0)) ∧
    (handlePositionUpdate { latitude := 0, longitude := 180 } 2000
        sampleState).lastPosition = some { latitude := 0, longitude := 180 } := by
  obtain ⟨h1, h2, h3⟩ :=
    noise_rejection { latitude := 0, longitude := 180 } 2000 sampleState
      { latitude := 0, longitude := 0 } rfl rfl
      (by rw [calculateDistance_equator_antipodal]; nlinarith [Real.pi_gt_three])
  exact ⟨h1, h2 (0, 0), h3⟩

/-- C4: a call to the sample handler while a run is active (with the
timestamp not behind the previous one) never decreases the recorded distance
or duration of any ledger record. -/
theorem ledger_monotone (p : LatLng) (now : ℝ) (s : RunState)
    (hrun : s.isRunning = true) (htime : s.lastUpdateTime ≤ now) :
    ∀ k r, mapGet s.captured k = some r →
      ∃ r', mapGet (handlePositionUpdate p now s).captured k = some r' ∧
        r.distanceMeters ≤ r'.distanceMeters ∧
        r.durationSeconds ≤ r'.durationSeconds := by
  obtain ⟨-, -, -, -, hcap⟩ := handlePositionUpdate_running p now s hrun
  intro k r hr
  rw [hcap]
  have htd : 0 ≤ stepTimeDelta s.lastUpdateTime now := by
    simp only [stepTimeDelta]
    split_ifs with h
    · linarith
    · exact le_refl 0
  have hsd := stepDelta_nonneg s.lastPosition p
  by_cases hk : (latLngToGridSquare p.latitude p.longitude GRID_SIZE_METERS).id = k
  · subst hk
    refine ⟨_, mapGet_mapSet_self _ _ _, ?_, ?_⟩
    · simp only [hr, Option.getD_some]
      linarith
    · simp only [hr, Option.getD_some]
      linarith
  · exact ⟨r, by rw [mapGet_mapSet_ne _ _ _ _ hk, hr], le_refl _, le_refl _⟩

/-- Witness for C4 on a one-tile ledger. -/
theorem ledger_monotone_witness :
    ∃ r', mapGet (handlePositionUpdate { latitude := 0, longitude := 0 } 2000
        sampleState).captured (0, 0) = some r' ∧
      (5 : ℝ) ≤ r'.distanceMeters ∧ (10 : ℝ) ≤ r'.durationSeconds := by
  obtain ⟨r', h1, h2, h3⟩ :=
    ledger_monotone { latitude := 0, longitude := 0 } 2000 sampleState rfl
      (by norm_num [sampleState]) (0, 0)
      { square := buildSquareFromIndices 0 0 100, distanceMeters := 5
        durationSeconds := 10, lastEnterTime := 0 }
      (by simp [sampleState, mapGet])
  exact ⟨r', h1, h2, h3⟩

theorem step_preserves_inv (p : LatLng) (now : ℝ) (s : RunState)
    (hrun : s.isRunning = true)
    (hinv : sumDist s.captured = s.totalDistance) :
    (handlePositionUpdate p now s).isRunning = true ∧
    sumDist (handlePositionUpdate p now s).captured
      = (handlePositionUpdate p now s).totalDistance := by
  obtain ⟨h1, -, -, htot, hcap⟩ := handlePositionUpdate_running p now s hrun
  refine ⟨h1, ?_⟩
  rw [hcap, htot, sumDist_mapSet]
  simp only [recDist_getD]
  rw [hinv]
  ring

theorem processSamples_inv (samples : List (LatLng × ℝ)) (s : RunState)
    (hrun : s.isRunning = true)
    (hinv : sumDist s.captured = s.totalDistance) :
    (processSamples samples s).isRunning = true ∧
    sumDist (processSamples samples s).captured
      = (processSamples samples s).totalDistance := by
  induction samples generalizing s with
  | nil => exact ⟨hrun, hinv⟩
  | cons hd tl ih =>
    simp only [processSamples, List.foldl_cons] at *
    obtain ⟨h1, h2⟩ := step_preserves_inv hd.1 hd.2 s hrun hinv
    exact ih _ h1 h2

/-- C10: after any sequence of samples processed from a freshly started run,
the sum of recorded distances across the ledger equals the accumulated run
total: each accepted delta is counted once on each side, and rejected deltas
on neither. -/
theorem ledger_total_consistency (samples : List (LatLng × ℝ)) (now₀ : ℝ)
    (s₀ : RunState) :
    sumDist (processSamples samples (handleStartRun now₀ s₀)).captured
      = (processSamples samples (handleStartRun now₀ s₀)).totalDistance :=
  (processSamples_inv samples (handleStartRun now₀ s₀) rfl
    (by simp [handleStartRun, sumDist])).2

/-! ## Haversine distance -/

/-- C7: `calculateDistanceMeters` returns R * c with R the Earth radius used
by the aggregator and c = 2 * atan2(sqrt a, sqrt(1 - a)) for the Haversine
term a, and a running step measures it from the immediately preceding
sample. -/
theorem distance_is_haversine (p q : LatLng) (s : RunState) (now : ℝ)
    (hrun : s.isRunning = true) (hlast : s.lastPosition = some p) :
    calculateDistanceMeters p q = haversineDistanceSpec p q ∧
    (handlePositionUpdate q now s).totalDistance
      = s.totalDistance +
        (if 0 < calculateDistanceMeters p q ∧ calculateDistanceMeters p q < 100
         then calculateDistanceMeters p q else 0) := by
  constructor
  · have ha : haversineTerm p q
        = Real.sin ((q.latitude - p.latitude) * π / 180 / 2) *
            Real.sin ((q.latitude - p.latitude) * π / 180 / 2) +
          Real.cos (p.latitude * π / 180) * Real.cos (q.latitude * π / 180) *
            Real.sin ((q.longitude - p.longitude) * π / 180 / 2) *
            Real.sin ((q.longitude - p.longitude) * π / 180 / 2) := by
      simp only [haversineTerm]
      ring
    simp only [calculateDistanceMeters, haversineDistanceSpec]
    rw [ha]
  · obtain ⟨-, -, -, htot, -⟩ := handlePositionUpdate_running q now s hrun
    rw [htot, hlast]
    simp only [stepDelta]

/-- Witness for C7: a stationary step at the origin. -/
theorem distance_is_haversine_witness :
    calculateDistanceMeters { latitude := 0, longitude := 0 }
        { latitude := 0, longitude := 0 }
      = haversineDistanceSpec { latitude := 0, longitude := 0 }
          { latitude := 0, longitude := 0 } ∧
    (handlePositionUpdate { latitude := 0, longitude := 0 } 2000
        sampleState).totalDistance
      = sampleState.totalDistance +
        (if 0 < calculateDistanceMeters { latitude := 0, longitude := 0 }
              { latitude := 0, longitude := 0 } ∧
            calculateDistanceMeters { latitude := 0, longitude := 0 }
              { latitude := 0, longitude := 0 } < 100
         then calculateDistanceMeters { latitude := 0, longitude := 0 }
            { latitude := 0, longitude := 0 }
         else 0) :=
  distance_is_haversine { latitude := 0, longitude := 0 }
    { latitude := 0, longitude := 0 } sampleState 2000 rfl rfl

/-! ## Pace -/

/-- C3 as stated is false: at 100.5 seconds over 1000 meters the formula
value is 100.5 / (1000 / 1000) / 60 = 1.675 min/km, but the submitted pace
pair is (1, 40), which reads 1 + 40/60 = 5/3 min/km (and 1.40 as a plain
decimal) — the source floors whole minutes and whole seconds. -/
theorem pace_formula_counterexample :
    decodePace (pacePair 100.5 1000) ≠ specPaceMinPerKm 100.5 1000 := by
  have h1 : ((100.5 : ℝ) / (1000 / 1000)) = 100.5 := by norm_num
  have hfloor1 : ⌊(100.5 : ℝ) / 60⌋ = 1 := by
    rw [Int.floor_eq_iff]
    norm_num
  have htr : jsTrunc ((100.5 : ℝ) / 60) = 1 := by
    rw [jsTrunc, if_pos (by norm_num), hfloor1]
    norm_num
  have hrem : jsRem (100.5 : ℝ) 60 = 40.5 := by
    rw [jsRem, htr]
    norm_num
  have hfloor2 : ⌊(40.5 : ℝ)⌋ = 40 := by
    rw [Int.floor_eq_iff]
    norm_num
  have hpair : pacePair 100.5 1000 = (1, 40) := by
    rw [pacePair]
    simp only [if_pos (show (0:ℝ) < 1000 / 1000 by norm_num)]
    rw [h1, hrem, hfloor1, hfloor2]
  rw [hpair, decodePace, specPaceMinPerKm, if_neg (by norm_num : (1000:ℝ) ≠ 0)]
  norm_num

/-- C3 amended: the submitted pace is the floor-of-minutes and
floor-of-seconds encoding of durationSeconds / (distanceMeters / 1000)
seconds per kilometer — within one second (1/60 min/km) of the exact
formula value — and when distanceMeters is 0 the submitted pace is the
zero pace (0, 0), never undefined. -/
theorem pace_guard_amended (durationSeconds distanceMeters : ℝ)
    (hd : 0 ≤ durationSeconds) :
    (distanceMeters = 0 → pacePair durationSeconds distanceMeters = (0, 0)) ∧
    (0 < distanceMeters →
      |decodePace (pacePair durationSeconds distanceMeters)
          - durationSeconds / (distanceMeters / 1000) / 60| < 1 / 60) := by
  constructor
  · intro h0
    simp [pacePair, h0]
  · intro hm
    have hkm : 0 < distanceMeters / 1000 := by positivity
    rw [pacePair]
    simp only [if_pos hkm]
    set psk := durationSeconds / (distanceMeters / 1000) with hpsk
    have hpsk0 : 0 ≤ psk := div_nonneg hd (le_of_lt hkm)
    have htr : jsTrunc (psk / 60) = ((⌊psk / 60⌋ : ℤ) : ℝ) := by
      rw [jsTrunc, if_pos (by positivity)]
    have hrem : jsRem psk 60 = psk - 60 * ((⌊psk / 60⌋ : ℤ) : ℝ) := by
      rw [jsRem, htr]
    rw [hrem, decodePace]
    have h1 : ((⌊psk - 60 * ((⌊psk / 60⌋ : ℤ) : ℝ)⌋ : ℤ) : ℝ)
        ≤ psk - 60 * ((⌊psk / 60⌋ : ℤ) : ℝ) := Int.floor_le _
    have h2 : psk - 60 * ((⌊psk / 60⌋ : ℤ) : ℝ) - 1
        < ((⌊psk - 60 * ((⌊psk / 60⌋ : ℤ) : ℝ)⌋ : ℤ) : ℝ) := Int.sub_one_lt_floor _
    rw [abs_lt]
    have h3 : ((⌊psk / 60⌋ : ℤ) : ℝ) ≤ psk / 60 := Int.floor_le _
    have h4 : psk / 60 - 1 < ((⌊psk / 60⌋ : ℤ) : ℝ) := Int.sub_one_lt_floor _
    constructor <;> [nlinarith; nlinarith]

/-- Witness for C3's amended statement at 330 s over 1000 m. -/
theorem pace_guard_amended_witness :
    ((1000 : ℝ) = 0 → pacePair 330 1000 = (0, 0)) ∧
    ((0 : ℝ) < 1000 →
      |decodePace (pacePair 330 1000) - 330 / (1000 / 1000) / 60| < 1 / 60) :=
  pace_guard_amended 330 1000 (by norm_num)

/-! ## Submission bounding box and empty run -/

theorem maxList_five (a b c d : ℝ) :
    maxList [a, b, c, d, a] = maxList [a, b, c, d] := by
  simp only [maxList, List.foldl_cons, List.foldl_nil]
  apply max_eq_left
  calc a ≤ max a b := le_max_left a b
    _ ≤ max (max a b) c := le_max_left _ _
    _ ≤ max (max (max a b) c) d := le_max_left _ _

theorem minList_five (a b c d : ℝ) :
    minList [a, b, c, d, a] = minList [a, b, c, d] := by
  simp only [minList, List.foldl_cons, List.foldl_nil]
  apply min_eq_left
  calc min (min (min a b) c) d ≤ min (min a b) c := min_le_left _ _
    _ ≤ min a b := min_le_left _ _
    _ ≤ a := min_le_left a b

/-- C6: a submission record derived from a captured tile carries the
explicit min/max latitude/longitude box over the tile's four corner points:
left corners the minimum longitude, right corners the maximum longitude,
top corners the maximum latitude, bottom corners the minimum latitude. -/
theorem submission_box (gx gy : ℤ) (es d dur t : ℝ) :
    (territoryOfRecord
        { square := buildSquareFromIndices gx gy es, distanceMeters := d
          durationSeconds := dur, lastEnterTime := t }).left_top_corner_lat
      = maxList ((buildSquareFromIndices gx gy es).corners.map LatLng.latitude) ∧
    (territoryOfRecord
        { square := buildSquareFromIndices gx gy es, distanceMeters := d
          durationSeconds := dur, lastEnterTime := t }).left_top_corner_lng
      = minList ((buildSquareFromIndices gx gy es).corners.map LatLng.longitude) ∧
    (territoryOfRecord
        { square := buildSquareFromIndices gx gy es, distanceMeters := d
          durationSeconds := dur, lastEnterTime := t }).left_bottom_corner_lat
      = minList ((buildSquareFromIndices gx gy es).corners.map LatLng.latitude) ∧
    (territoryOfRecord
        { square := buildSquareFromIndices gx gy es, distanceMeters := d
          durationSeconds := dur, lastEnterTime := t }).left_bottom_corner_lng
      = minList ((buildSquareFromIndices gx gy es).corners.map LatLng.longitude) ∧
    (territoryOfRecord
        { square := buildSquareFromIndices gx gy es, distanceMeters := d
          durationSeconds := dur, lastEnterTime := t }).right_top_corner_lat
      = maxList ((buildSquareFromIndices gx gy es).corners.map LatLng.latitude) ∧
    (territoryOfRecord
        { square := buildSquareFromIndices gx gy es, distanceMeters := d
          durationSeconds := dur, lastEnterTime := t }).right_top_corner_lng
      = maxList ((buildSquareFromIndices gx gy es).corners.map LatLng.longitude) ∧
    (territoryOfRecord
        { square := buildSquareFromIndices gx gy es, distanceMeters := d
          durationSeconds := dur, lastEnterTime := t }).right_bottom_corner_lat
      = minList ((buildSquareFromIndices gx gy es).corners.map LatLng.latitude) ∧
    (territoryOfRecord
        { square := buildSquareFromIndices gx gy es, distanceMeters := d
          durationSeconds := dur, lastEnterTime := t }).right_bottom_corner_lng
      = maxList ((buildSquareFromIndices gx gy es).corners.map LatLng.longitude) := by
  refine ⟨?_, ?_, ?_, ?_, ?_, ?_, ?_, ?_⟩ <;>
    simp only [territoryOfRecord, gridSquareToPolygon, buildSquareFromIndices,
      List.map_cons, List.map_nil, List.headD_cons, List.cons_append,
      List.nil_append] <;>
    first
      | exact maxList_five _ _ _ _
      | exact minList_five _ _ _ _

/-- C8: finishing a run with an empty ledger is valid: the derived
submission payload is the empty list and the submit routine signals the
no-territory outcome, not an error. -/
theorem empty_run_submit (s : RunState) (h : s.captured = []) :
    territoriesPayload s.captured = [] ∧
    (submitRun s).2 = SubmitOutcome.noTerritory ∧
    (submitRun s).1.isRunning = false := by
  refine ⟨by simp [territoriesPayload, h], ?_, ?_⟩ <;>
    simp [submitRun, territoriesPayload, h]

/-- Witness for C8 on a state with an empty ledger. -/
theorem empty_run_submit_witness :
    territoriesPayload (RunState.mk true none none 0 0 0 []).captured = [] ∧
    (submitRun (RunState.mk true none none 0 0 0 [])).2
      = SubmitOutcome.noTerritory ∧
    (submitRun (RunState.mk true none none 0 0 0 [])).1.isRunning = false :=
  empty_run_submit (RunState.mk true none none 0 0 0 []) rfl

end TerraStride
